import Mathlib

/-!
Shallow embedding of `src/app.py`, a one-to-many mail merge that renders a set
of Word templates per customer from two Excel sheets.  Pure helper functions
(`normalize_key`, `safe_filename`, `format_int`, `format_currency`, `pick_col`,
`build_goods_table_subdoc`, `find_sheet_names`, the per-customer render loop)
are translated into Lean functions over explicit data-model types; Unicode
NFD decomposition and combining-mark data are modelled by finite tables over
the Vietnamese character range the program works with (identity elsewhere).
-/

namespace MailMerge

/-- Combining marks (Unicode block 0300) occurring in the NFD decompositions of
the Vietnamese characters in `nfdPairs`.  `unicodedata.combining` is nonzero
exactly on these in the modelled character range. -/
def combiningMarks : List Char :=
  ['̀', '́', '̂', '̃', '̆', '̉', '̛', '̣']

/-- Finite model of Unicode NFD decomposition (`unicodedata.normalize("NFD", ·)`)
for the precomposed Vietnamese letters; every other character decomposes to
itself (handled by the `getD` default in `nfd`).  Note that `Đ`/`đ` have no
canonical decomposition in Unicode, so they are (correctly) absent here. -/
def nfdPairs : List (Char × List Char) :=
  [ ('à', ['a', '̀']), ('á', ['a', '́']), ('ả', ['a', '̉']),
    ('ã', ['a', '̃']), ('ạ', ['a', '̣']),
    ('ă', ['a', '̆']), ('ằ', ['a', '̆', '̀']),
    ('ắ', ['a', '̆', '́']), ('ẳ', ['a', '̆', '̉']),
    ('ẵ', ['a', '̆', '̃']), ('ặ', ['a', '̣', '̆']),
    ('â', ['a', '̂']), ('ầ', ['a', '̂', '̀']),
    ('ấ', ['a', '̂', '́']), ('ẩ', ['a', '̂', '̉']),
    ('ẫ', ['a', '̂', '̃']), ('ậ', ['a', '̣', '̂']),
    ('è', ['e', '̀']), ('é', ['e', '́']), ('ẻ', ['e', '̉']),
    ('ẽ', ['e', '̃']), ('ẹ', ['e', '̣']),
    ('ê', ['e', '̂']), ('ề', ['e', '̂', '̀']),
    ('ế', ['e', '̂', '́']), ('ể', ['e', '̂', '̉']),
    ('ễ', ['e', '̂', '̃']), ('ệ', ['e', '̣', '̂']),
    ('ì', ['i', '̀']), ('í', ['i', '́']), ('ỉ', ['i', '̉']),
    ('ĩ', ['i', '̃']), ('ị', ['i', '̣']),
    ('ò', ['o', '̀']), ('ó', ['o', '́']), ('ỏ', ['o', '̉']),
    ('õ', ['o', '̃']), ('ọ', ['o', '̣']),
    ('ô', ['o', '̂']), ('ồ', ['o', '̂', '̀']),
    ('ố', ['o', '̂', '́']), ('ổ', ['o', '̂', '̉']),
    ('ỗ', ['o', '̂', '̃']), ('ộ', ['o', '̣', '̂']),
    ('ơ', ['o', '̛']), ('ờ', ['o', '̛', '̀']),
    ('ớ', ['o', '̛', '́']), ('ở', ['o', '̛', '̉']),
    ('ỡ', ['o', '̛', '̃']), ('ợ', ['o', '̛', '̣']),
    ('ù', ['u', '̀']), ('ú', ['u', '́']), ('ủ', ['u', '̉']),
    ('ũ', ['u', '̃']), ('ụ', ['u', '̣']),
    ('ư', ['u', '̛']), ('ừ', ['u', '̛', '̀']),
    ('ứ', ['u', '̛', '́']), ('ử', ['u', '̛', '̉']),
    ('ữ', ['u', '̛', '̃']), ('ự', ['u', '̛', '̣']),
    ('ỳ', ['y', '̀']), ('ý', ['y', '́']), ('ỷ', ['y', '̉']),
    ('ỹ', ['y', '̃']), ('ỵ', ['y', '̣']),
    ('À', ['A', '̀']), ('Á', ['A', '́']), ('Ả', ['A', '̉']),
    ('Ã', ['A', '̃']), ('Ạ', ['A', '̣']),
    ('Ă', ['A', '̆']), ('Ằ', ['A', '̆', '̀']),
    ('Ắ', ['A', '̆', '́']), ('Ẳ', ['A', '̆', '̉']),
    ('Ẵ', ['A', '̆', '̃']), ('Ặ', ['A', '̣', '̆']),
    ('Â', ['A', '̂']), ('Ầ', ['A', '̂', '̀']),
    ('Ấ', ['A', '̂', '́']), ('Ẩ', ['A', '̂', '̉']),
    ('Ẫ', ['A', '̂', '̃']), ('Ậ', ['A', '̣', '̂']),
    ('È', ['E', '̀']), ('É', ['E', '́']), ('Ẻ', ['E', '̉']),
    ('Ẽ', ['E', '̃']), ('Ẹ', ['E', '̣']),
    ('Ê', ['E', '̂']), ('Ề', ['E', '̂', '̀']),
    ('Ế', ['E', '̂', '́']), ('Ể', ['E', '̂', '̉']),
    ('Ễ', ['E', '̂', '̃']), ('Ệ', ['E', '̣', '̂']),
    ('Ì', ['I', '̀']), ('Í', ['I', '́']), ('Ỉ', ['I', '̉']),
    ('Ĩ', ['I', '̃']), ('Ị', ['I', '̣']),
    ('Ò', ['O', '̀']), ('Ó', ['O', '́']), ('Ỏ', ['O', '̉']),
    ('Õ', ['O', '̃']), ('Ọ', ['O', '̣']),
    ('Ô', ['O', '̂']), ('Ồ', ['O', '̂', '̀']),
    ('Ố', ['O', '̂', '́']), ('Ổ', ['O', '̂', '̉']),
    ('Ỗ', ['O', '̂', '̃']), ('Ộ', ['O', '̣', '̂']),
    ('Ơ', ['O', '̛']), ('Ờ', ['O', '̛', '̀']),
    ('Ớ', ['O', '̛', '́']), ('Ở', ['O', '̛', '̉']),
    ('Ỡ', ['O', '̛', '̃']), ('Ợ', ['O', '̛', '̣']),
    ('Ù', ['U', '̀']), ('Ú', ['U', '́']), ('Ủ', ['U', '̉']),
    ('Ũ', ['U', '̃']), ('Ụ', ['U', '̣']),
    ('Ư', ['U', '̛']), ('Ừ', ['U', '̛', '̀']),
    ('Ứ', ['U', '̛', '́']), ('Ử', ['U', '̛', '̉']),
    ('Ữ', ['U', '̛', '̃']), ('Ự', ['U', '̛', '̣']),
    ('Ỳ', ['Y', '̀']), ('Ý', ['Y', '́']), ('Ỷ', ['Y', '̉']),
    ('Ỹ', ['Y', '̃']), ('Ỵ', ['Y', '̣']) ]

/-- NFD decomposition of a single character (see `nfdPairs`). -/
def nfd (c : Char) : List Char := (nfdPairs.lookup c).getD [c]

/-- Model of `unicodedata.combining(c) != 0` over the modelled range. -/
def combining (c : Char) : Bool := combiningMarks.contains c

/-- Model of Python `str.lower` for a single character over the range the
program encounters after accent stripping: ASCII letters and `Đ` (which has no
NFD decomposition and hence survives `strip_accents`); identity elsewhere. -/
def lowerPairs : List (Char × Char) :=
  [ ('A', 'a'), ('B', 'b'), ('C', 'c'), ('D', 'd'), ('E', 'e'), ('F', 'f'),
    ('G', 'g'), ('H', 'h'), ('I', 'i'), ('J', 'j'), ('K', 'k'), ('L', 'l'),
    ('M', 'm'), ('N', 'n'), ('O', 'o'), ('P', 'p'), ('Q', 'q'), ('R', 'r'),
    ('S', 's'), ('T', 't'), ('U', 'u'), ('V', 'v'), ('W', 'w'), ('X', 'x'),
    ('Y', 'y'), ('Z', 'z'), ('Đ', 'đ') ]

/-- Single-character model of Python `str.lower`. -/
def pyLower (c : Char) : Char := (lowerPairs.lookup c).getD c

/-- Embedding of `strip_accents` (app.py:22-25): NFD-decompose, drop combining
marks.  (On `str` input; the Python identity fallback for non-`str` input is
outside the `String` type.) -/
def strip_accents (s : String) : String :=
  String.mk ((s.toList.flatMap nfd).filter (fun c => !combining c))

/-- Embedding of `normalize_key` (app.py:28-31):
`strip_accents(text).lower().replace(" ", "")`. -/
def normalize_key (s : String) : String :=
  String.mk ((((strip_accents s).toList).map pyLower).filter (fun c => c != ' '))

/-- Exact decimal numbers `m / 10 ^ e`: the model of the numeric (int/float)
cell values the program manipulates.  Every claim-relevant value (small
integers, halves) is exactly representable both here and in IEEE doubles, so
decimal products and roundings agree with the Python originals. -/
structure Dec where
  m : Int
  e : Nat
deriving DecidableEq, Repr

/-- Product of two decimal values (model of the pandas column product in
`build_goods_table_subdoc`). -/
def Dec.mul (a b : Dec) : Dec := ⟨a.m * b.m, a.e + b.e⟩

/-- Python `round` (round-half-to-even) of a decimal value to an integer, as
computed by `int(round(float(value)))` in `format_int` and by the `:,.0f`
format in `format_currency`. -/
def pyRound (d : Dec) : Int :=
  let D : Int := 10 ^ d.e
  let f := d.m / D
  let r := d.m % D
  if 2 * r < D then f
  else if D < 2 * r then f + 1
  else if f % 2 = 0 then f else f + 1

/-- Model of a pandas cell value: missing (`NaN`/`None`), a string, or a
number. -/
inductive PyVal where
  | na
  | str (s : String)
  | num (d : Dec)
deriving DecidableEq, Repr

/-- Decimal rendering of a `Dec` (model of Python `str` on numbers; trailing
zeros of the representation are kept, a harmless deviation from float `repr`
that no claim's truth depends on: it is only ever applied to string cells on
the claims' inputs). -/
def Dec.render (d : Dec) : String :=
  let sign := if d.m < 0 then "-" else ""
  let ds0 := Nat.toDigits 10 d.m.natAbs
  let ds := List.replicate (d.e + 1 - ds0.length) '0' ++ ds0
  if d.e = 0 then sign ++ String.mk ds
  else sign ++ String.mk (ds.take (ds.length - d.e)) ++ "." ++
    String.mk (ds.drop (ds.length - d.e))

/-- Model of Python `str(value)` on a cell value. -/
def pyStr : PyVal → String
  | .na => "nan"
  | .str s => s
  | .num d => d.render

/-- Model of `pd.isna` on a single cell value. -/
def pyIsNa : PyVal → Bool
  | .na => true
  | _ => false

/-- Model of the Python comparison `value == ""` (false on non-strings). -/
def pyEqEmptyStr : PyVal → Bool
  | .str s => s == ""
  | _ => false

/-- Numeric value of a list of decimal digit characters. -/
def digitsVal (ds : List Char) : Nat :=
  ds.foldl (fun a c => a * 10 + (c.toNat - 48)) 0

/-- Model of Python `float(s)` / the string case of `pd.to_numeric` for plain
decimal literals (optional sign, at most one point, surrounding spaces).
Scientific notation and `inf`/`nan` spellings are not modelled (no claim
depends on them); anything else fails (`none` = a raised `ValueError`,
respectively `NaN` under `errors="coerce"`). -/
def parseNum (s : String) : Option Dec :=
  let l := ((s.toList.dropWhile (fun c => c = ' ')).reverse.dropWhile
    (fun c => c = ' ')).reverse
  let p : Bool × List Char :=
    match l with
    | '-' :: rest => (true, rest)
    | '+' :: rest => (false, rest)
    | _ => (false, l)
  let ip := p.2.takeWhile (fun c => c ≠ '.')
  let fp := (p.2.dropWhile (fun c => c ≠ '.')).drop 1
  if (ip ≠ [] ∨ fp ≠ []) ∧ ip.all Char.isDigit ∧ fp.all Char.isDigit then
    some ⟨(if p.1 then -1 else 1) *
      ((digitsVal ip * 10 ^ fp.length + digitsVal fp : Nat) : Int), fp.length⟩
  else none

/-- Model of `float(value)` inside the `try` blocks of the formatters: numbers
pass through, strings are parsed.  (`float` of an actual `NaN` succeeds in
Python, but every call site is guarded by `pd.isna`, so the `.na` branch is
unreachable there.) -/
def pyFloat : PyVal → Option Dec
  | .num d => some d
  | .str s => parseNum s
  | .na => none

/-- Chunks of three characters (used to place thousands separators, starting
from the right end after the caller reverses). -/
def chunk3 : List Char → List (List Char)
  | [] => []
  | [a] => [[a]]
  | [a, b] => [[a, b]]
  | a :: b :: c :: rest => [a, b, c] :: chunk3 rest

/-- Model of the Python format `f"{n:,}"` for an integer: decimal digits
grouped in threes with `,` as the grouping character. -/
def commaGroup (n : Int) : String :=
  (if n < 0 then "-" else "") ++
    String.mk (List.intercalate [',']
      ((((Nat.toDigits 10 n.natAbs).reverse |> chunk3).map List.reverse).reverse))

/-- Model of `.replace(",", ".")` for the single-character pattern used by the
formatters. -/
def replaceCommaDot (s : String) : String :=
  String.mk (s.toList.map (fun c => if c = ',' then '.' else c))

/-- Embedding of `format_int` (app.py:56-62). -/
def format_int (v : PyVal) : String :=
  if pyIsNa v || pyEqEmptyStr v then ""
  else
    match pyFloat v with
    | some d => replaceCommaDot (commaGroup (pyRound d))
    | none => pyStr v

/-- Embedding of `format_currency` (app.py:65-71); `f"{x:,.0f}"` rounds
half-to-even exactly like `round` (the `-0` display for negative values that
round to zero is not modelled; no claim touches negative prices). -/
def format_currency (v : PyVal) : String :=
  if pyIsNa v || pyEqEmptyStr v then ""
  else
    match pyFloat v with
    | some d => replaceCommaDot (commaGroup (pyRound d))
    | none => pyStr v

/-- Characters that Python `str.isalnum` accepts beyond ASCII in the modelled
character range: the Vietnamese letters (all `nfdPairs` keys plus `đ`/`Đ`). -/
def extraAlnum : List Char := nfdPairs.map (fun p => p.1) ++ ['đ', 'Đ']

/-- Model of Python `str.isalnum` for one character. -/
def pyIsAlnum (c : Char) : Bool := c.isAlphanum || extraAlnum.contains c

/-- The allow-list `"-_.() []"` of `safe_filename` (app.py:37). -/
def keepChars : List Char := "-_.() []".toList

/-- Embedding of `safe_filename` (app.py:34-38) on string input (both call
sites pass `str(...)`). -/
def safe_filename (s : String) : String :=
  String.mk (s.toList.map (fun c =>
    if pyIsAlnum c || keepChars.contains c then c else '_'))

/-- Embedding of `format_date` (app.py:41-53) restricted to the model's cell
values: missing → `""`; other values go to `pd.to_datetime(..., errors =
"coerce")`, whose calendar arithmetic is not modelled — the model keeps the
fallback string form of the value.  No claim depends on date internals; the
render-pipeline claim (C1) only needs `format_date` to be a pure function of
the cell. -/
def format_date (v : PyVal) : String :=
  match v with
  | .na => ""
  | v => pyStr v

/-- A pandas row (`Series`): cells addressed by column name. -/
abbrev Row := List (String × PyVal)

/-- Model of a pandas `DataFrame`: ordered column names plus the rows. -/
structure DataFrame where
  columns : List String
  rows : List Row
deriving DecidableEq, Repr

/-- Column lookup in a row (model of `Series` indexing / `in` membership). -/
def rowGet (r : Row) (c : String) : Option PyVal :=
  (r.find? (fun p => p.1 == c)).map (fun p => p.2)

/-- Model of `row.get(col, "")` (app.py:222-223). -/
def rowGetD (r : Row) (c : String) : PyVal := (rowGet r c).getD (.str "")

/-- Model of the cell-extraction pattern `r[col] if col in r else ""`
(app.py:169-172), where `col` may be `None` (`None in series` is false). -/
def cellOf (r : Row) (oc : Option String) : PyVal :=
  match oc with
  | none => .str ""
  | some c =>
    match rowGet r c with
    | some v => v
    | none => .str ""

/-- Model of pandas column assignment `df[k] = v` at row granularity: replace
an existing binding for `k`, otherwise add one (the position of a column
within a row is never observed — rows are only read through `rowGet`). -/
def rowSet (r : Row) (k : String) (v : PyVal) : Row :=
  (r.filter (fun p => p.1 != k)) ++ [(k, v)]

/-- Model of the dict comprehension `{normalize_key(c): c for c in df.columns
if isinstance(c, str)}` (app.py:136) as a lookup function: later columns
overwrite earlier ones on a normalized-key collision (Python dict semantics). -/
def availableMap (columns : List String) (k : String) : Option String :=
  ((columns.map (fun c => (normalize_key c, c))).reverse.find?
    (fun p => p.1 == k)).map (fun p => p.2)

/-- Embedding of `pick_col` (app.py:135-141): normalize each candidate in
priority order and return the first hit among the available columns. -/
def pick_col (columns : List String) (candidates : List String) : Option String :=
  candidates.findSome? (fun cand => availableMap columns (normalize_key cand))

/-- Candidate spellings for the item-name column (app.py:143). -/
def tenCands : List String :=
  ["Tên hàng", "Ten hang", "Ten hàng", "Tên Hàng", "TênHH", "TenHH"]

/-- Candidate spellings for the quantity column (app.py:144). -/
def slCands : List String := ["Số lượng", "So luong", "Số Lượng", "SL", "SoLuong"]

/-- Candidate spellings for the unit-price column (app.py:145). -/
def dgCands : List String := ["Đơn giá", "Don gia", "Đơn Giá", "DonGia"]

/-- Candidate spellings for the line-total column (app.py:146). -/
def ttCands : List String := ["Thành tiền", "Thanh tien", "Thành Tiền", "ThanhTien"]

/-- Model of `pd.to_numeric(·, errors="coerce")` on one cell (`none` = NaN). -/
def coerceNum (v : PyVal) : Option Dec :=
  match v with
  | .num d => some d
  | .str s => parseNum s
  | .na => none

/-- Coercion followed by `.fillna(0)` (app.py:152-153). -/
def toNumFill0 (v : PyVal) : Dec := (coerceNum v).getD ⟨0, 0⟩

/-- Row-level model of app.py:152-154: add the helper columns `_SoluongNum`
and `_DongiaNum` (the coerced quantity and unit price) and their product
`_ThanhTien` to one working-copy row, in assignment order. -/
def addDerived (sc dc : String) (r : Row) : Row :=
  let r1 := rowSet r "_SoluongNum" (.num (toNumFill0 (cellOf r (some sc))))
  let r2 := rowSet r1 "_DongiaNum" (.num (toNumFill0 (cellOf r1 (some dc))))
  let a : Dec := match rowGet r2 "_SoluongNum" with | some (.num q) => q | _ => ⟨0, 0⟩
  let b : Dec := match rowGet r2 "_DongiaNum" with | some (.num q) => q | _ => ⟨0, 0⟩
  rowSet r2 "_ThanhTien" (.num (a.mul b))

/-- Python truthiness of an optional column name (`None` and `""` falsy), as
tested by `cols_map["soluong"] and cols_map["dongia"]` (app.py:150) and by
`if not wanted[...]` (app.py:93). -/
def pyTruthyOpt : Option String → Bool
  | none => false
  | some s => s != ""

/-- Observable content of a `docxtpl` `Subdoc`: the paragraphs and tables
added to it (a table is its list of rows, a row its list of cell texts).  The
`doc` a subdoc is allocated from (app.py:118) contributes no content. -/
structure Subdoc where
  paragraphs : List String
  tables : List (List (List String))
deriving DecidableEq, Repr

/-- The fixed header labels (app.py:160). -/
def headers : List String := ["Tên hàng", "Số lượng", "Đơn giá", "Thành tiền"]

/-- The empty-state paragraph text (app.py:122). -/
def emptyStateText : String := "Không có hàng hoá."

/-- The name cell `"" if pd.isna(ten_val) else str(ten_val)` (app.py:174). -/
def pyStrCell (v : PyVal) : String := if pyIsNa v then "" else pyStr v

/-- Embedding of `build_goods_table_subdoc` (app.py:113-179).  `none` models
the Python `items_df is None` case and `rows = []` models `items_df.empty`. -/
def build_goods_table_subdoc (items : Option DataFrame) : Subdoc :=
  match items with
  | none => ⟨[emptyStateText], []⟩
  | some df =>
    if df.rows.isEmpty then ⟨[emptyStateText], []⟩
    else
      let ten := pick_col df.columns tenCands
      let soluong := pick_col df.columns slCands
      let dongia := pick_col df.columns dgCands
      let thanhtien0 := pick_col df.columns ttCands
      let derive := thanhtien0.isNone && pyTruthyOpt soluong && pyTruthyOpt dongia
      let working :=
        if derive then df.rows.map (addDerived (soluong.getD "") (dongia.getD ""))
        else df.rows
      let thanhtien := if derive then some "_ThanhTien" else thanhtien0
      let dataRows := working.map (fun r =>
        [ pyStrCell (cellOf r ten),
          format_int (cellOf r soluong),
          format_currency (cellOf r dongia),
          format_currency (cellOf r thanhtien) ])
      ⟨[], [headers :: dataRows]⟩

/-- Prefix test on character lists. -/
def startsWithChars : List Char → List Char → Bool
  | [], _ => true
  | _ :: _, [] => false
  | a :: as, b :: bs => a == b && startsWithChars as bs

/-- Substring test on character lists. -/
def containsChars (n : List Char) : List Char → Bool
  | [] => startsWithChars n []
  | b :: bs => startsWithChars n (b :: bs) || containsChars n bs

/-- Model of the Python substring test `needle in hay`. -/
def pyIn (needle hay : String) : Bool := containsChars needle.toList hay.toList

/-- One step of the sheet-scanning loop of `find_sheet_names` (app.py:84-92):
`w` is the pair (`wanted["hoso"]`, `wanted["hanghoa"]`).  The goods test keeps
the source's redundant duplicate `"hanghoa" in key` and the two accented
variants (which can never occur in a normalized key). -/
def sheetStep (w : Option String × Option String) (s : String) :
    Option String × Option String :=
  let key := normalize_key s
  let w1 := if pyIn "hoso" key && w.1.isNone then (some s, w.2) else w
  let w2 :=
    if (pyIn "hanghoa" key || pyIn "hanghoa" key || pyIn "hanghoá" key ||
        pyIn "hanghoà" key) && w1.2.isNone then (w1.1, some s) else w1
  if pyIn "hang" key && pyIn "hoa" key && w2.2.isNone then (w2.1, some s) else w2

/-- The scanning loop of `find_sheet_names` (app.py:83-92). -/
def resolveSheets (sheetNames : List String) : Option String × Option String :=
  sheetNames.foldl sheetStep (none, none)

/-- Python `repr` of a string as it appears inside an f-formatted list (the
sheet names here contain no quotes, so `repr` just adds single quotes). -/
def pyQuote (s : String) : String := "'" ++ s ++ "'"

/-- Comma-space join (the body of a Python list `repr`). -/
def commaJoin : List String → String
  | [] => ""
  | [x] => x
  | x :: y :: xs => x ++ ", " ++ commaJoin (y :: xs)

/-- Python `f"{xls.sheet_names}"` for a list of sheet names. -/
def pyListRepr (l : List String) : String :=
  "[" ++ commaJoin (l.map pyQuote) ++ "]"

/-- The error message raised by `find_sheet_names` (app.py:94). -/
def missingSheetMsg (sheetNames : List String) : String :=
  "Không tìm thấy đủ 2 sheet trong file Excel: " ++ pyListRepr sheetNames

/-- Embedding of `find_sheet_names` (app.py:77-95) over the workbook's list
of sheet names. -/
def find_sheet_names (sheetNames : List String) : Except String (String × String) :=
  let w := resolveSheets sheetNames
  if !pyTruthyOpt w.1 || !pyTruthyOpt w.2 then .error (missingSheetMsg sheetNames)
  else .ok (w.1.getD "", w.2.getD "")

/-- The output folder name (app.py:224): sanitize both segments, join with
`_`, then strip leading and trailing underscores (Python `str.strip("_")`). -/
def folder_name (customer_id customer_name : String) : String :=
  let s := safe_filename customer_id ++ "_" ++ safe_filename customer_name
  String.mk (((s.toList.dropWhile (fun c => c = '_')).reverse.dropWhile
    (fun c => c = '_')).reverse)

/-- The output file name
`f"{tpl_path.stem}__{safe_filename(str(customer_id))}.docx"` (app.py:241). -/
def out_name (stem customer_id : String) : String :=
  stem ++ "__" ++ safe_filename customer_id ++ ".docx"

/-- The goods filter (app.py:229-231): rows whose `Mã KH` cell, viewed as a
string (`astype(str)`), equals the customer's id; the empty frame when the
goods frame is absent or lacks the literal join column. -/
def filter_items (items_all : Option DataFrame) (customer_id : String) : DataFrame :=
  match items_all with
  | none => ⟨[], []⟩
  | some df =>
    if df.columns.contains "Mã KH" then
      ⟨df.columns, df.rows.filter (fun r =>
        pyStr ((rowGet r "Mã KH").getD .na) == customer_id)⟩
    else ⟨[], []⟩

/-- A context value: a raw scalar cell, a formatted string, or the table
fragment (the only non-scalar placeholder). -/
inductive CtxVal where
  | scalar (v : PyVal)
  | text (s : String)
  | frag (sd : Subdoc)
deriving DecidableEq, Repr

/-- The `val` lambda of `build_context_for_customer` (app.py:191): `""` when
the column is absent or the cell missing, the raw cell otherwise. -/
def ctxVal (r : Row) (c : String) : PyVal :=
  match rowGet r c with
  | none => .str ""
  | some v => if pyIsNa v then .str "" else v

/-- Embedding of `build_context_for_customer` (app.py:185-210).  The `doc`
parameter of the Python function is used only to allocate the `Subdoc`; the
fragment's content is a function of `items_df` alone, which the model
captures by dropping `doc`. -/
def build_context_for_customer (customer_row : Row) (items_df : Option DataFrame) :
    List (String × CtxVal) :=
  [ ("TênKH", .scalar (ctxVal customer_row "Họ tên")),
    ("NgàySinh", .text (format_date (ctxVal customer_row "Ngày sinh"))),
    ("ĐịaChỉ", .scalar (ctxVal customer_row "Địa chỉ")),
    ("SốĐiệnThoại", .scalar (ctxVal customer_row "Số điện thoại")),
    ("MãKH", .scalar (ctxVal customer_row "Mã KH")),
    ("BảngHàngHoá", .frag (build_goods_table_subdoc items_df)) ]

/-- A rendered, saved artifact: the output path segments, the template it was
rendered from, and the substituted context (the observable content of the
saved document). -/
structure Artifact where
  folder : String
  filename : String
  template : String
  context : List (String × CtxVal)
deriving DecidableEq, Repr

/-- Embedding of `render_templates_for_customer` (app.py:213-244): one
artifact per template, in template order; the context (and in it the table
fragment) is rebuilt inside the per-template loop, as in the source. -/
def render_templates_for_customer (templates : List String) (customer_row : Row)
    (items_all : Option DataFrame) : List Artifact :=
  let customer_id := pyStr (rowGetD customer_row "Mã KH")
  let customer_name := pyStr (rowGetD customer_row "Họ tên")
  let folder := folder_name customer_id customer_name
  let items_df := filter_items items_all customer_id
  templates.map (fun t =>
    { folder := folder, filename := out_name t customer_id, template := t,
      context := build_context_for_customer customer_row (some items_df) })

/-- Modelled from the spec: the build-once-then-reuse pipeline of §3 / §4.5
step 4 — the `ItemTableFragment` is built once per customer, before the
template loop, and that shared fragment is embedded in every template's
context. -/
def render_templates_build_once (templates : List String) (customer_row : Row)
    (items_all : Option DataFrame) : List Artifact :=
  let customer_id := pyStr (rowGetD customer_row "Mã KH")
  let customer_name := pyStr (rowGetD customer_row "Họ tên")
  let folder := folder_name customer_id customer_name
  let items_df := filter_items items_all customer_id
  let frag := build_goods_table_subdoc (some items_df)
  templates.map (fun t =>
    { folder := folder, filename := out_name t customer_id, template := t,
      context :=
        [ ("TênKH", .scalar (ctxVal customer_row "Họ tên")),
          ("NgàySinh", .text (format_date (ctxVal customer_row "Ngày sinh"))),
          ("ĐịaChỉ", .scalar (ctxVal customer_row "Địa chỉ")),
          ("SốĐiệnThoại", .scalar (ctxVal customer_row "Số điện thoại")),
          ("MãKH", .scalar (ctxVal customer_row "Mã KH")),
          ("BảngHàngHoá", .frag frag) ] })

/-- The required-profile-columns check of `main` (app.py:271-274). -/
def required_cols_check (cols : List String) : Except String Unit :=
  match ["Mã KH", "Họ tên"].find? (fun c => !cols.contains c) with
  | some c => .error ("Sheet 'Hồ sơ' thiếu cột bắt buộc: " ++ c)
  | none => .ok ()

/-- The data-dependent part of `main` (app.py:247-285), after the path and
template-discovery glue: resolve the two sheets, check the required profile
columns, then render every template for every profile row.  The first
component is the list of artifacts written; the second carries the raised
error message, if any — nothing is written in that case. -/
def runPipeline (sheetNames : List String) (hoso hanghoa : DataFrame)
    (templates : List String) : List Artifact × Option String :=
  match find_sheet_names sheetNames with
  | .error e => ([], some e)
  | .ok _ =>
    match required_cols_check hoso.columns with
    | .error e => ([], some e)
    | .ok _ =>
      (hoso.rows.flatMap (fun r =>
        render_templates_for_customer templates r (some hanghoa)), none)

/-! Lemmas about the key normalizer. -/

/-- Boolean test that a character is a fixed point of every stage of the
normalization pipeline (decomposition, mark filtering, lowering). -/
def normalCharB (c : Char) : Bool :=
  (nfd c == [c]) && !combining c && (pyLower c == c)

theorem toList_mk (l : List Char) : (String.mk l).toList = l := rfl

theorem mk_toList (s : String) : String.mk s.toList = s := rfl

theorem lookupMem {β : Type} {ps : List (Char × β)} {k : Char} {b : β}
    (h : ps.lookup k = some b) : (k, b) ∈ ps := by
  rcases List.lookup_eq_some_iff.mp h with ⟨l₁, l₂, hl, h2⟩
  rw [hl]
  simp

theorem normalB_unpack {c : Char} (h : normalCharB c = true) :
    nfd c = [c] ∧ combining c = false ∧ pyLower c = c := by
  simp only [normalCharB, Bool.and_eq_true, beq_iff_eq, Bool.not_eq_true'] at h
  exact ⟨h.1.1, h.1.2, h.2⟩

set_option maxRecDepth 8192 in
theorem normalB_of_nfd_piece :
    ∀ p ∈ nfdPairs, ∀ d ∈ p.2, combining d = false → normalCharB (pyLower d) = true := by
  decide

theorem normalB_lower_values :
    ∀ p ∈ lowerPairs, normalCharB p.2 = true ∧ p.2 ≠ ' ' := by decide

theorem normalChar_of_piece (a d : Char) (hda : d ∈ nfd a)
    (hcomb : combining d = false) (hsp : pyLower d ≠ ' ') :
    nfd (pyLower d) = [pyLower d] ∧ combining (pyLower d) = false ∧
      pyLower (pyLower d) = pyLower d ∧ pyLower d ≠ ' ' := by
  cases h : nfdPairs.lookup a with
  | some l =>
    have hmem : (a, l) ∈ nfdPairs := lookupMem h
    have hd : d ∈ l := by
      have : nfd a = l := by simp [nfd, h]
      rwa [this] at hda
    rcases normalB_unpack (normalB_of_nfd_piece (a, l) hmem d hd hcomb) with ⟨h1, h2, h3⟩
    exact ⟨h1, h2, h3, hsp⟩
  | none =>
    have ha : nfd a = [a] := by simp [nfd, h]
    have had : d = a := by
      rw [ha] at hda
      simpa using hda
    subst had
    cases h2 : lowerPairs.lookup d with
    | none =>
      have hl : pyLower d = d := by simp [pyLower, h2]
      rw [hl]
      exact ⟨by simp [nfd, h], hcomb, hl, by rw [hl] at hsp; exact hsp⟩
    | some v =>
      have hmem2 : (d, v) ∈ lowerPairs := lookupMem h2
      have hv : pyLower d = v := by simp [pyLower, h2]
      rcases normalB_lower_values (d, v) hmem2 with ⟨hb, hvs⟩
      rcases normalB_unpack hb with ⟨h1, h3, h4⟩
      rw [hv]
      exact ⟨h1, h3, h4, hvs⟩

theorem normalize_key_chars (s : String) :
    ∀ c ∈ (normalize_key s).toList,
      nfd c = [c] ∧ combining c = false ∧ pyLower c = c ∧ c ≠ ' ' := by
  intro c hc
  simp only [normalize_key, strip_accents, toList_mk] at hc
  rcases List.mem_filter.mp hc with ⟨hc1, hcsp⟩
  rcases List.mem_map.mp hc1 with ⟨d, hd1, rfl⟩
  rcases List.mem_filter.mp hd1 with ⟨hd2, hdcomb⟩
  rcases List.mem_flatMap.mp hd2 with ⟨a, _, hda⟩
  have hsp : pyLower d ≠ ' ' := by simpa using hcsp
  have hcomb : combining d = false := by simpa using hdcomb
  exact normalChar_of_piece a d hda hcomb hsp

theorem flatMap_fixed {l : List Char} (h : ∀ c ∈ l, nfd c = [c]) :
    l.flatMap nfd = l := by
  induction l with
  | nil => rfl
  | cons a l ih =>
    rw [List.flatMap_cons, h a (by simp), ih (fun c hc => h c (by simp [hc]))]
    rfl

theorem map_fixed {l : List Char} {f : Char → Char} (h : ∀ c ∈ l, f c = c) :
    l.map f = l := by
  induction l with
  | nil => rfl
  | cons a l ih =>
    rw [List.map_cons, h a (by simp), ih (fun c hc => h c (by simp [hc]))]

theorem normalize_key_fixed (t : String)
    (h : ∀ c ∈ t.toList,
      nfd c = [c] ∧ combining c = false ∧ pyLower c = c ∧ c ≠ ' ') :
    normalize_key t = t := by
  have h1 : strip_accents t = t := by
    unfold strip_accents
    rw [flatMap_fixed (fun c hc => (h c hc).1)]
    rw [List.filter_eq_self.mpr (fun c hc => by simp [(h c hc).2.1])]
    exact mk_toList t
  unfold normalize_key
  rw [h1, map_fixed (fun c hc => (h c hc).2.2.1)]
  rw [List.filter_eq_self.mpr (fun c hc => by simp [(h c hc).2.2.2])]
  exact mk_toList t

/-- C5: `normalize_key` is idempotent, and it identifies accent/case/space
variants: the normalized keys of `"Hàng Hoá"` and `"hang hoa"` coincide. -/
theorem C5_normalize_key_idempotent :
    (∀ s : String, normalize_key (normalize_key s) = normalize_key s) ∧
    normalize_key "Hàng Hoá" = normalize_key "hang hoa" := by
  refine ⟨fun s => normalize_key_fixed (normalize_key s) (normalize_key_chars s), ?_⟩
  decide

/-! Lemmas about column resolution. -/

theorem availableMap_none_iff {columns : List String} {k : String} :
    availableMap columns k = none ↔ ∀ col ∈ columns, normalize_key col ≠ k := by
  unfold availableMap
  rw [Option.map_eq_none', List.find?_eq_none]
  constructor
  · intro h col hcol heq
    have hmem : (normalize_key col, col) ∈ (columns.map
        (fun c => (normalize_key c, c))).reverse := by
      rw [List.mem_reverse]
      exact List.mem_map.mpr ⟨col, hcol, rfl⟩
    have := h _ hmem
    simp [heq] at this
  · intro h p hp
    rw [List.mem_reverse] at hp
    rcases List.mem_map.mp hp with ⟨c, hc, rfl⟩
    simpa using h c hc

theorem availableMap_some {columns : List String} {k col : String}
    (h : availableMap columns k = some col) :
    col ∈ columns ∧ normalize_key col = k := by
  unfold availableMap at h
  rcases Option.map_eq_some'.mp h with ⟨p, hp, rfl⟩
  have h1 := List.find?_some hp
  have h2 := List.mem_of_find?_eq_some hp
  rw [List.mem_reverse] at h2
  rcases List.mem_map.mp h2 with ⟨c, hc, rfl⟩
  exact ⟨hc, by simpa using h1⟩

theorem pick_col_none_iff {columns candidates : List String} :
    pick_col columns candidates = none ↔
      ∀ cand ∈ candidates, ∀ col ∈ columns,
        normalize_key cand ≠ normalize_key col := by
  unfold pick_col
  rw [List.findSome?_eq_none_iff]
  constructor
  · intro h cand hcand col hcol heq
    exact (availableMap_none_iff.mp (h cand hcand) col hcol) heq.symm
  · intro h cand hcand
    exact availableMap_none_iff.mpr (fun col hcol hk => h cand hcand col hcol hk.symm)

theorem pick_col_some {columns candidates : List String} {col : String}
    (h : pick_col columns candidates = some col) :
    col ∈ columns ∧ ∃ pre cand post, candidates = pre ++ cand :: post ∧
      normalize_key cand = normalize_key col ∧
      ∀ c ∈ pre, ∀ c2 ∈ columns, normalize_key c ≠ normalize_key c2 := by
  unfold pick_col at h
  rcases List.findSome?_eq_some_iff.mp h with ⟨l₁, a, l₂, hsplit, ha, hprev⟩
  rcases availableMap_some ha with ⟨hcolmem, hk⟩
  exact ⟨hcolmem, l₁, a, l₂, hsplit, hk.symm, fun c hc c2 hc2 heq =>
    (availableMap_none_iff.mp (hprev c hc) c2 hc2) heq.symm⟩

/-- C4: `pick_col` returns `none` exactly when no candidate's normalized key
matches any available column's normalized key; when it returns a column, that
column is one of the available columns and it is matched by the earliest
candidate in candidate (priority) order — every earlier candidate matches no
available column at all; and on the spec's example it picks `"Tên hàng"`
(matched by the first candidate) although `"SoLuong"` comes first among the
available columns. -/
theorem C4_pick_col :
    (∀ columns candidates : List String,
      (pick_col columns candidates = none ↔
        ∀ cand ∈ candidates, ∀ col ∈ columns,
          normalize_key cand ≠ normalize_key col)) ∧
    (∀ (columns candidates : List String) (col : String),
      pick_col columns candidates = some col →
        col ∈ columns ∧ ∃ pre cand post, candidates = pre ++ cand :: post ∧
          normalize_key cand = normalize_key col ∧
          ∀ c ∈ pre, ∀ c2 ∈ columns, normalize_key c ≠ normalize_key c2) ∧
    pick_col ["SoLuong", "Tên hàng"] ["Tên hàng", "Ten hang"] = some "Tên hàng" :=
  ⟨fun _ _ => pick_col_none_iff, fun _ _ _ => pick_col_some, by decide⟩

/-- Witness for C4 at the spec's concrete example. -/
theorem C4_pick_col_witness :
    "Tên hàng" ∈ ["SoLuong", "Tên hàng"] ∧
    ∃ pre cand post, (["Tên hàng", "Ten hang"] : List String) = pre ++ cand :: post ∧
      normalize_key cand = normalize_key "Tên hàng" ∧
      ∀ c ∈ pre, ∀ c2 ∈ ["SoLuong", "Tên hàng"], normalize_key c ≠ normalize_key c2 :=
  C4_pick_col.2.1 ["SoLuong", "Tên hàng"] ["Tên hàng", "Ten hang"] "Tên hàng" (by decide)

/-! Lemmas about the formatters. -/

theorem comma_not_mem_replaceCommaDot (s : String) :
    ',' ∉ (replaceCommaDot s).toList := by
  intro h
  simp only [replaceCommaDot, toList_mk] at h
  rcases List.mem_map.mp h with ⟨c, _, hc⟩
  by_cases h2 : c = ','
  · rw [if_pos h2] at hc
    exact absurd hc (by decide)
  · rw [if_neg h2] at hc
    exact h2 hc

/-- C6: `format_int` is total by construction — its behavior is exhaustively
characterized by three cases — and never raises: the empty string on a
missing (`NaN`) or empty-string value; for a value that parses as a number,
the value rounded to the nearest integer and grouped with `"."` as the
thousands character (the output never contains `","`); and on parse failure
the value's plain string form. -/
theorem C6_format_int_total :
    (∀ v : PyVal, pyIsNa v = true ∨ pyEqEmptyStr v = true → format_int v = "") ∧
    (∀ (v : PyVal) (d : Dec), pyIsNa v = false → pyEqEmptyStr v = false →
      pyFloat v = some d →
        format_int v = replaceCommaDot (commaGroup (pyRound d)) ∧
        ',' ∉ (format_int v).toList) ∧
    (∀ v : PyVal, pyIsNa v = false → pyEqEmptyStr v = false → pyFloat v = none →
      format_int v = pyStr v) ∧
    format_int (.num ⟨1234567, 0⟩) = "1.234.567" := by
  refine ⟨?_, ?_, ?_, by decide⟩
  · intro v h
    unfold format_int
    rcases h with h | h <;> simp [h]
  · intro v d h1 h2 h3
    have he : format_int v = replaceCommaDot (commaGroup (pyRound d)) := by
      unfold format_int
      simp [h1, h2, h3]
    exact ⟨he, he ▸ comma_not_mem_replaceCommaDot _⟩
  · intro v h1 h2 h3
    unfold format_int
    simp [h1, h2, h3]

/-- Witness for C6 on concrete values of each case. -/
theorem C6_format_int_total_witness :
    format_int (.str "") = "" ∧
    (format_int (.num ⟨1234567, 0⟩) =
        replaceCommaDot (commaGroup (pyRound ⟨1234567, 0⟩)) ∧
      ',' ∉ (format_int (.num ⟨1234567, 0⟩)).toList) ∧
    format_int (.str "abc") = pyStr (.str "abc") :=
  ⟨C6_format_int_total.1 (.str "") (Or.inr (by decide)),
   C6_format_int_total.2.1 (.num ⟨1234567, 0⟩) ⟨1234567, 0⟩
     (by decide) (by decide) (by decide),
   C6_format_int_total.2.2.1 (.str "abc") (by decide) (by decide) (by decide)⟩

/-- C10: on values exactly halfway between two integers, `format_int` rounds
half to even (Python `round` semantics): the half-integer `k + 1/2`
(the exact decimal `(10k+5)/10`) rounds to `k` when `k` is even and to
`k + 1` when `k` is odd; in particular 2.5 renders as "2" and 3.5 as "4". -/
theorem C10_format_int_half_even :
    (∀ k : Int, pyRound ⟨10 * k + 5, 1⟩ = if k % 2 = 0 then k else k + 1) ∧
    format_int (.num ⟨25, 1⟩) = "2" ∧ format_int (.num ⟨35, 1⟩) = "4" := by
  refine ⟨?_, by decide, by decide⟩
  intro k
  have hp : (10 : Int) ^ (1 : Nat) = 10 := by norm_num
  have h1 : (10 * k + 5) / (10 : Int) = k := by omega
  have h2 : (10 * k + 5) % (10 : Int) = 5 := by omega
  simp only [pyRound, hp, h1, h2]
  norm_num

/-- C8: `safe_filename` maps every character that is neither alphanumeric nor
in the allow-list `-_.() []` to an underscore and keeps every other character
unchanged; `"A/B:C"` becomes `"A_B_C"` while `"Nguyễn Văn A"` (spaces
included) is preserved; and both output path segments — the per-customer
folder name and the output file name — are constructed from the sanitized
customer id and name only. -/
theorem C8_sanitize :
    (∀ s : String, (safe_filename s).toList = s.toList.map (fun c =>
      if pyIsAlnum c || keepChars.contains c then c else '_')) ∧
    safe_filename "A/B:C" = "A_B_C" ∧
    safe_filename "Nguyễn Văn A" = "Nguyễn Văn A" ∧
    (∀ cid name : String, folder_name cid name =
      String.mk ((((safe_filename cid ++ "_" ++ safe_filename name).toList.dropWhile
        (fun c => c = '_')).reverse.dropWhile (fun c => c = '_')).reverse)) ∧
    (∀ stem cid : String, out_name stem cid =
      stem ++ "__" ++ safe_filename cid ++ ".docx") :=
  ⟨fun _ => rfl, by decide, by decide, fun _ _ => rfl, fun _ _ => rfl⟩

/-- C9: the empty item set (no rows, or an absent frame) yields a fragment
with exactly one explanatory paragraph carrying the empty-state text and no
table at all — in particular not a zero-row table. -/
theorem C9_empty_items :
    build_goods_table_subdoc none = ⟨[emptyStateText], []⟩ ∧
    (∀ df : DataFrame, df.rows = [] →
      build_goods_table_subdoc (some df) = ⟨[emptyStateText], []⟩) ∧
    (build_goods_table_subdoc none).paragraphs.length = 1 ∧
    (build_goods_table_subdoc none).tables = [] := by
  refine ⟨rfl, ?_, rfl, rfl⟩
  intro df h
  unfold build_goods_table_subdoc
  simp [h]

/-- Witness for C9 on a concrete empty frame. -/
theorem C9_empty_items_witness :
    build_goods_table_subdoc (some ⟨["Tên hàng"], []⟩) = ⟨[emptyStateText], []⟩ :=
  C9_empty_items.2.1 ⟨["Tên hàng"], []⟩ rfl

/-- C1: the per-template fragment rebuild in `render_templates_for_customer`
is observably equivalent to the spec's build-once-then-reuse pipeline
(`render_templates_build_once`), and the table fragment embedded in each of a
customer's rendered artifacts is the same one — a function of the customer's
filtered item set alone, independent of the template being rendered. -/
theorem C1_table_built_once :
    (∀ (templates : List String) (row : Row) (items : Option DataFrame),
      render_templates_for_customer templates row items =
        render_templates_build_once templates row items) ∧
    (∀ (templates : List String) (row : Row) (items : Option DataFrame),
      ∀ a ∈ render_templates_for_customer templates row items,
        a.context.lookup "BảngHàngHoá" =
          some (.frag (build_goods_table_subdoc
            (some (filter_items items (pyStr (rowGetD row "Mã KH"))))))) := by
  constructor
  · intro templates row items
    rfl
  · intro templates row items a ha
    rcases List.mem_map.mp ha with ⟨t, _, rfl⟩
    rfl

/-- Witness for C1 on a one-template render. -/
theorem C1_table_built_once_witness :
    (Artifact.mk "001" "T1__001.docx" "T1"
        (build_context_for_customer [("Mã KH", PyVal.str "001")]
          (some (filter_items none "001")))).context.lookup "BảngHàngHoá" =
      some (.frag (build_goods_table_subdoc
        (some (filter_items none
          (pyStr (rowGetD [("Mã KH", PyVal.str "001")] "Mã KH")))))) :=
  C1_table_built_once.2 ["T1"] [("Mã KH", PyVal.str "001")] none _ (by decide)

/-! Lemmas about the derived line total. -/

theorem find?_filter_ne (r : Row) (k k2 : String) (h : k2 ≠ k) :
    (r.filter (fun p => p.1 != k)).find? (fun p => p.1 == k2) =
      r.find? (fun p => p.1 == k2) := by
  induction r with
  | nil => rfl
  | cons a r ih =>
    by_cases hk : a.1 = k
    · have hfil : (a :: r).filter (fun p => p.1 != k) =
          r.filter (fun p => p.1 != k) := by
        simp [List.filter_cons, hk]
      rw [hfil, ih]
      have hna : ¬((fun p : String × PyVal => p.1 == k2) a = true) := by
        simp only [beq_iff_eq, hk]
        exact fun he => h he.symm
      exact (@List.find?_cons_of_neg _ (fun p => p.1 == k2) a r hna).symm
    · have hfil : (a :: r).filter (fun p => p.1 != k) =
          a :: r.filter (fun p => p.1 != k) := by
        simp [List.filter_cons, hk]
      rw [hfil]
      by_cases h2 : a.1 = k2
      · rw [List.find?_cons_of_pos _ (by simp [h2]),
          List.find?_cons_of_pos _ (by simp [h2])]
      · rw [List.find?_cons_of_neg _ (by simp [h2]),
          List.find?_cons_of_neg _ (by simp [h2]), ih]

theorem rowGet_rowSet (r : Row) (k k2 : String) (v : PyVal) :
    rowGet (rowSet r k v) k2 = if k2 = k then some v else rowGet r k2 := by
  unfold rowGet rowSet
  rw [List.find?_append]
  by_cases h : k2 = k
  · subst h
    have hnone : (r.filter (fun p => p.1 != k2)).find? (fun p => p.1 == k2) = none := by
      rw [List.find?_eq_none]
      intro p hp
      have hthis := (List.mem_filter.mp hp).2
      simp only [bne_iff_ne] at hthis
      simp only [beq_iff_eq]
      exact hthis
    rw [hnone, if_pos rfl]
    simp
  · rw [find?_filter_ne r k k2 h, if_neg h]
    have hlast : ([(k, v)] : Row).find? (fun p => p.1 == k2) = none := by
      rw [List.find?_eq_none]
      intro p hp
      simp only [List.mem_singleton] at hp
      subst hp
      simp only [beq_iff_eq]
      exact fun he => h he.symm
    rw [hlast]
    simp

theorem cellOf_some (r : Row) (c : String) :
    cellOf r (some c) =
      match rowGet r c with
      | some v => v
      | none => .str "" := rfl

theorem cellOf_rowSet_ne (r : Row) (k c : String) (v : PyVal) (h : c ≠ k) :
    cellOf (rowSet r k v) (some c) = cellOf r (some c) := by
  rw [cellOf_some, cellOf_some, rowGet_rowSet, if_neg h]

theorem pick_col_key_mem {columns cands : List String} {col : String}
    (h : pick_col columns cands = some col) :
    normalize_key col ∈ cands.map normalize_key := by
  rcases pick_col_some h with ⟨_, pre, cand, post, hsplit, hk, _⟩
  rw [hsplit]
  exact List.mem_map.mpr ⟨cand, by simp, hk⟩

theorem addDerived_total (sc dc : String) (r : Row) (hdc : dc ≠ "_SoluongNum") :
    rowGet (addDerived sc dc r) "_ThanhTien" =
      some (.num ((toNumFill0 (cellOf r (some sc))).mul
        (toNumFill0 (cellOf r (some dc))))) := by
  unfold addDerived
  rw [rowGet_rowSet, if_pos rfl]
  rw [rowGet_rowSet, if_neg (by decide : ("_SoluongNum" : String) ≠ "_DongiaNum")]
  rw [rowGet_rowSet, if_pos rfl]
  rw [rowGet_rowSet, if_pos rfl]
  rw [cellOf_rowSet_ne r "_SoluongNum" dc _ hdc]

/-- The final (line-total) cell of each data row of a built fragment: the
fourth cell of the rows after the header row of its table. -/
def totalCells (sd : Subdoc) : List String :=
  match sd.tables with
  | [_ :: data] => data.map (fun row => row.getD 3 "")
  | _ => []

theorem totalCells_mk (data : List (List String)) :
    totalCells ⟨[], [headers :: data]⟩ = data.map (fun row => row.getD 3 "") := rfl

theorem build_nonempty (df : DataFrame) (h : df.rows.isEmpty = false) :
    build_goods_table_subdoc (some df) =
      ⟨[], [headers ::
        (if (pick_col df.columns ttCands).isNone &&
            pyTruthyOpt (pick_col df.columns slCands) &&
            pyTruthyOpt (pick_col df.columns dgCands) then
          df.rows.map (addDerived ((pick_col df.columns slCands).getD "")
            ((pick_col df.columns dgCands).getD ""))
        else df.rows).map (fun r =>
          [ pyStrCell (cellOf r (pick_col df.columns tenCands)),
            format_int (cellOf r (pick_col df.columns slCands)),
            format_currency (cellOf r (pick_col df.columns dgCands)),
            format_currency (cellOf r
              (if (pick_col df.columns ttCands).isNone &&
                  pyTruthyOpt (pick_col df.columns slCands) &&
                  pyTruthyOpt (pick_col df.columns dgCands) then some "_ThanhTien"
               else pick_col df.columns ttCands)) ])]⟩ := by
  obtain ⟨cols, rows⟩ := df
  cases rows with
  | nil => simp at h
  | cons r0 rs => rfl

theorem cellOf_addDerived_total (sc dc : String) (r : Row)
    (hdc : dc ≠ "_SoluongNum") :
    cellOf (addDerived sc dc r) (some "_ThanhTien") =
      .num ((toNumFill0 (cellOf r (some sc))).mul (toNumFill0 (cellOf r (some dc)))) := by
  rw [cellOf_some, addDerived_total sc dc r hdc]

/-- C3: when no literal line-total column resolves: if both the quantity and
unit-price columns resolved, every row's line-total cell is the formatted
product quantity × unit price, each operand coerced with failures treated as
0; if either of the two is unresolved, no total is derived (the cell is
empty).  On the spec's examples: quantity 3 at unit price 1000 renders total
"3.000", and unparsable quantity "abc" renders total "0". -/
theorem C3_derived_total :
    (∀ (df : DataFrame) (sc dc : String), df.rows ≠ [] →
      pick_col df.columns ttCands = none →
      pick_col df.columns slCands = some sc →
      pick_col df.columns dgCands = some dc →
      totalCells (build_goods_table_subdoc (some df)) =
        df.rows.map (fun r => format_currency (.num
          ((toNumFill0 (cellOf r (some sc))).mul
            (toNumFill0 (cellOf r (some dc))))))) ∧
    (∀ df : DataFrame, df.rows ≠ [] →
      pick_col df.columns ttCands = none →
      (pick_col df.columns slCands = none ∨ pick_col df.columns dgCands = none) →
      totalCells (build_goods_table_subdoc (some df)) =
        df.rows.map (fun _ => "")) ∧
    totalCells (build_goods_table_subdoc (some ⟨["Số lượng", "Đơn giá"],
      [[("Số lượng", .num ⟨3, 0⟩), ("Đơn giá", .num ⟨1000, 0⟩)]]⟩)) = ["3.000"] ∧
    totalCells (build_goods_table_subdoc (some ⟨["Số lượng", "Đơn giá"],
      [[("Số lượng", .str "abc"), ("Đơn giá", .num ⟨1000, 0⟩)]]⟩)) = ["0"] := by
  refine ⟨?_, ?_, by decide, by decide⟩
  · intro df sc dc hrows htt hsl hdg
    have hsck := pick_col_key_mem hsl
    have hdck := pick_col_key_mem hdg
    have hsc0 : (sc != "") = true := by
      rw [bne_iff_ne]
      intro he
      rw [he] at hsck
      revert hsck
      decide
    have hdc0 : (dc != "") = true := by
      rw [bne_iff_ne]
      intro he
      rw [he] at hdck
      revert hdck
      decide
    have hdcS : dc ≠ "_SoluongNum" := by
      intro he
      rw [he] at hdck
      revert hdck
      decide
    have hne : df.rows.isEmpty = false := by
      cases h : df.rows.isEmpty
      · rfl
      · exact absurd (List.isEmpty_iff.mp h) hrows
    rw [build_nonempty df hne]
    simp only [htt, hsl, hdg, Option.isNone_none, Option.getD_some, pyTruthyOpt,
      hsc0, hdc0, Bool.true_and, Bool.and_self, if_true]
    rw [totalCells_mk, List.map_map, List.map_map]
    refine List.map_congr_left (fun r _ => ?_)
    simp only [Function.comp_apply]
    rw [cellOf_addDerived_total sc dc r hdcS]
    rfl
  · intro df hrows htt hnone
    have hne : df.rows.isEmpty = false := by
      cases h : df.rows.isEmpty
      · rfl
      · exact absurd (List.isEmpty_iff.mp h) hrows
    rw [build_nonempty df hne]
    rcases hnone with h | h
    · simp only [htt, h, Option.isNone_none, pyTruthyOpt, Bool.false_and,
        Bool.and_false, Bool.true_and, Bool.false_eq_true, if_false]
      rw [totalCells_mk, List.map_map]
      exact List.map_congr_left (fun r _ => rfl)
    · simp only [htt, h, Option.isNone_none, pyTruthyOpt, Bool.false_and,
        Bool.and_false, Bool.true_and, Bool.false_eq_true, if_false]
      rw [totalCells_mk, List.map_map]
      exact List.map_congr_left (fun r _ => rfl)

/-- Witness for C3 at the spec's quantity-3, unit-price-1000 example. -/
theorem C3_derived_total_witness :
    totalCells (build_goods_table_subdoc (some ⟨["Số lượng", "Đơn giá"],
      [[("Số lượng", PyVal.num ⟨3, 0⟩), ("Đơn giá", PyVal.num ⟨1000, 0⟩)]]⟩)) =
      ([[("Số lượng", PyVal.num ⟨3, 0⟩), ("Đơn giá", PyVal.num ⟨1000, 0⟩)]] :
          List Row).map (fun r => format_currency (.num
        ((toNumFill0 (cellOf r (some "Số lượng"))).mul
          (toNumFill0 (cellOf r (some "Đơn giá")))))) :=
  C3_derived_total.1 ⟨["Số lượng", "Đơn giá"],
      [[("Số lượng", PyVal.num ⟨3, 0⟩), ("Đơn giá", PyVal.num ⟨1000, 0⟩)]]⟩
    "Số lượng" "Đơn giá" (by decide) (by decide) (by decide) (by decide)

/-! Lemmas about the missing-sheet failure. -/

theorem toList_append (a b : String) : (a ++ b).toList = a.toList ++ b.toList :=
  String.data_append a b

theorem quote_embeds (s : String) : s.toList <:+: (pyQuote s).toList := by
  refine ⟨("'" : String).toList, ("'" : String).toList, ?_⟩
  simp [pyQuote, toList_append]

theorem commaJoin_embeds (s : String) :
    ∀ l1 l2 : List String,
      s.toList <:+: (commaJoin ((l1 ++ s :: l2).map pyQuote)).toList := by
  intro l1
  induction l1 with
  | nil =>
    intro l2
    cases l2 with
    | nil => simpa [commaJoin] using quote_embeds s
    | cons y ys =>
      have h1 := quote_embeds s
      refine h1.trans ?_
      simp only [List.nil_append, List.map_cons, commaJoin, toList_append]
      exact ⟨[], (", " : String).toList ++
        (commaJoin (pyQuote y :: ys.map pyQuote)).toList, by simp⟩
  | cons x xs ih =>
    intro l2
    have hne : (xs ++ s :: l2).map pyQuote ≠ [] := by simp
    cases hm : (xs ++ s :: l2).map pyQuote with
    | nil => exact absurd hm hne
    | cons r0 rs =>
      have hih := ih l2
      rw [hm] at hih
      refine hih.trans ?_
      simp only [List.cons_append, List.map_cons, hm, commaJoin, toList_append]
      exact ⟨(pyQuote x).toList ++ (", " : String).toList, [], by simp⟩

theorem mem_infix_pyListRepr {s : String} {l : List String} (h : s ∈ l) :
    s.toList <:+: (pyListRepr l).toList := by
  rcases List.append_of_mem h with ⟨l1, l2, rfl⟩
  refine (commaJoin_embeds s l1 l2).trans ?_
  unfold pyListRepr
  rw [toList_append, toList_append]
  exact ⟨("[" : String).toList, ("]" : String).toList, by simp⟩

/-- C7: for every sheet-name list in which the profile category or the goods
category resolves to no sheet, the pipeline stops with the error raised by
`find_sheet_names`, whose message embeds every available sheet name, and no
artifact is produced. -/
theorem C7_missing_sheet_aborts :
    ∀ (sheetNames : List String) (hoso hanghoa : DataFrame)
      (templates : List String),
      (pyTruthyOpt (resolveSheets sheetNames).1 = false ∨
       pyTruthyOpt (resolveSheets sheetNames).2 = false) →
      runPipeline sheetNames hoso hanghoa templates =
        ([], some (missingSheetMsg sheetNames)) ∧
      ∀ s ∈ sheetNames, s.toList <:+: (missingSheetMsg sheetNames).toList := by
  intro sheetNames hoso hanghoa templates h
  have herr : find_sheet_names sheetNames = .error (missingSheetMsg sheetNames) := by
    unfold find_sheet_names
    rcases h with h | h <;> simp [h]
  constructor
  · unfold runPipeline
    rw [herr]
  · intro s hs
    refine (mem_infix_pyListRepr hs).trans ?_
    unfold missingSheetMsg
    rw [toList_append]
    exact ⟨("Không tìm thấy đủ 2 sheet trong file Excel: " : String).toList, [],
      by simp⟩

/-- Witness for C7: two sheets, neither name matching either pattern. -/
theorem C7_missing_sheet_aborts_witness :
    runPipeline ["Sheet1", "Data2"] ⟨[], []⟩ ⟨[], []⟩ ["T1"] =
      ([], some (missingSheetMsg ["Sheet1", "Data2"])) ∧
    "Sheet1".toList <:+: (missingSheetMsg ["Sheet1", "Data2"]).toList :=
  ⟨(C7_missing_sheet_aborts ["Sheet1", "Data2"] ⟨[], []⟩ ⟨[], []⟩ ["T1"]
      (Or.inl (by decide))).1,
   (C7_missing_sheet_aborts ["Sheet1", "Data2"] ⟨[], []⟩ ⟨[], []⟩ ["T1"]
      (Or.inl (by decide))).2 "Sheet1" (by decide)⟩

/-! Claim C2: which column lookups are fuzzy and which are literal. -/

/-- Counterexample to C2: the headers `"Ma KH"` / `"Ho ten"` are
normalizer-variants of the required profile columns `"Mã KH"` / `"Họ tên"`
(their normalized keys coincide), yet the required-columns check of `main`
rejects them, because it compares literal strings; likewise a goods sheet
whose join column is the variant `"Ma KH"` is not joined — the filter
produces the empty frame although a matching row exists. -/
theorem C2_counterexample :
    normalize_key "Ma KH" = normalize_key "Mã KH" ∧
    normalize_key "Ho ten" = normalize_key "Họ tên" ∧
    required_cols_check ["Ma KH", "Ho ten"] =
      .error "Sheet 'Hồ sơ' thiếu cột bắt buộc: Mã KH" ∧
    filter_items (some ⟨["Ma KH"], [[("Ma KH", PyVal.str "001")]]⟩) "001" =
      ⟨[], []⟩ :=
  ⟨by decide, by decide, rfl, rfl⟩

/-- C2 amended: fuzzy (normalizer-based) matching applies to sheet names and
to the goods item columns resolved through `pick_col` — `pick_col` succeeds
exactly when some candidate and some available column share a normalized
key, and accent-variant sheet names resolve — but the required profile
columns and the goods join column are matched by exact literal string:
`required_cols_check` succeeds iff the literal names `"Mã KH"` and `"Họ tên"`
are present, and the goods filter joins only when the literal `"Mã KH"` is
among the goods columns (otherwise the filtered frame is empty). -/
theorem C2_amended_fuzzy_vs_literal :
    (∀ columns candidates : List String,
      (pick_col columns candidates).isSome = true ↔
        ∃ cand ∈ candidates, ∃ col ∈ columns,
          normalize_key cand = normalize_key col) ∧
    (∀ cols : List String, required_cols_check cols = .ok () ↔
      "Mã KH" ∈ cols ∧ "Họ tên" ∈ cols) ∧
    (∀ (df : DataFrame) (cid : String), "Mã KH" ∉ df.columns →
      filter_items (some df) cid = ⟨[], []⟩) ∧
    (pyTruthyOpt (resolveSheets ["Ho so", "Hang hoa"]).1 = true ∧
     pyTruthyOpt (resolveSheets ["Ho so", "Hang hoa"]).2 = true) := by
  refine ⟨?_, ?_, ?_, by decide, by decide⟩
  · intro columns candidates
    rw [Option.isSome_iff_ne_none, Ne, pick_col_none_iff]
    push_neg
    rfl
  · intro cols
    unfold required_cols_check
    constructor
    · intro h
      cases hf : ["Mã KH", "Họ tên"].find? (fun c => !cols.contains c) with
      | some c =>
        rw [hf] at h
        exact absurd h (by simp)
      | none =>
        rw [List.find?_eq_none] at hf
        have h1 := hf "Mã KH" (by simp)
        have h2 := hf "Họ tên" (by simp)
        simp at h1 h2
        exact ⟨h1, h2⟩
    · intro hmem
      have hf : ["Mã KH", "Họ tên"].find? (fun c => !cols.contains c) = none := by
        rw [List.find?_eq_none]
        intro c hc
        simp only [List.mem_cons, List.mem_singleton] at hc
        rcases hc with rfl | hc
        · simpa using hmem.1
        · rcases hc with rfl | hfalse
          · simpa using hmem.2
          · exact absurd hfalse (List.not_mem_nil c)
      rw [hf]
  · intro df cid h
    have hc : df.columns.contains "Mã KH" = false := by
      cases hb : df.columns.contains "Mã KH"
      · rfl
      · exact absurd (by simpa using hb) h
    simp only [filter_items, hc]
    simp

/-- Witness for C2's amended claim: literal headers pass the check, a
variant join header yields the empty filtered frame. -/
theorem C2_amended_witness :
    required_cols_check ["Mã KH", "Họ tên"] = .ok () ∧
    filter_items (some ⟨["Ma KH"], [[("Ma KH", PyVal.str "001")]]⟩) "001" =
      ⟨[], []⟩ :=
  ⟨(C2_amended_fuzzy_vs_literal.2.1 ["Mã KH", "Họ tên"]).mpr ⟨by decide, by decide⟩,
   C2_amended_fuzzy_vs_literal.2.2.1 ⟨["Ma KH"], [[("Ma KH", PyVal.str "001")]]⟩
     "001" (by decide)⟩

end MailMerge
